import Mathlib

/-!
Verification of the node-coordination core of crawlab-core
(`src/node/service/master_service.go`) against its natural-language
specification.

The Go code is shallowly embedded: registry state is a list of node
records, external collaborators (the grpc server's subscription table,
the model service's list query) are environment parameters, and each
Go function that threads state becomes a Lean function returning the
new state together with the Go-style error result (`Option GoError`
for `error` return values, `none` meaning `nil`).
-/

namespace Crawlab

/-- A Go `error` value. `id` models the identity of the error value
(pointer identity for `errors.New` sentinels), `msg` models the string
returned by `Error()`. Two distinct error values may share a message. -/
structure GoError where
  id : Nat
  msg : String
deriving DecidableEq, Repr

/-- `mongo.ErrNoDocuments`, the sentinel returned by a lookup that finds
no document. -/
def mongoErrNoDocuments : GoError :=
  { id := 1, msg := "mongo: no documents in result" }

/-- Modelled from the spec: `errors.ErrorNodeMonitorError`, the aggregate
tick-level monitor error (the errors constants file is not in src/; the
spec calls it `monitor_error`). Only its identity matters. -/
def errorNodeMonitorError : GoError :=
  { id := 2, msg := "node error: monitor error" }

/-- Modelled from the spec: the `duplicate_key` error of the registry
`add` operation. -/
def errDuplicateKey : GoError :=
  { id := 3, msg := "duplicate key" }

/-- `constants.NodeStatusOnline`. -/
def nodeStatusOnline : String := "online"

/-- `constants.NodeStatusOffline`. -/
def nodeStatusOffline : String := "offline"

/-- A persisted `models.Node` record, with the fields the master service
reads or writes. Timestamps are abstract `Nat` instants. -/
structure Node where
  key : String
  name : String
  isMaster : Bool
  status : String
  enabled : Bool
  active : Bool
  activeTs : Nat
deriving DecidableEq, Repr

/-- The node registry: the persistent catalog of node records. -/
abbrev Registry := List Node

/-- `modelSvc.GetNodeByKey(key, nil)`: look a node up by its stable key;
absent keys yield `mongo.ErrNoDocuments`. -/
def getNodeByKey (reg : Registry) (key : String) : Except GoError Node :=
  match reg.find? (fun n => n.key == key) with
  | some n => Except.ok n
  | none => Except.error mongoErrNoDocuments

/-- Modelled from the spec: the registry `add(node)` operation used by
`delegate.NewModelNodeDelegate(node).Add()` (the delegate package is not
in src/). Per spec 4.1 it inserts and fails with `duplicate_key` if the
key is already present. -/
def addNode (reg : Registry) (n : Node) : Except GoError Registry :=
  if reg.any (fun m => m.key == n.key) then Except.error errDuplicateKey
  else Except.ok (reg ++ [n])

/-- Modelled from the spec: `nodeD.UpdateStatusOnline()` (delegate package
not in src/). Per spec 4.1, `update_status` to `online` atomically sets the
status and also updates `active_ts = now` and `active = true`. -/
def updateStatusOnline (reg : Registry) (key : String) (now : Nat) : Registry :=
  reg.map fun m =>
    if m.key == key then
      { m with status := nodeStatusOnline, active := true, activeTs := now }
    else m

/-- Modelled from the spec: `nodeD.UpdateStatusOffline()` (delegate package
not in src/). Per spec 4.1, the transition to `offline` sets the status and
leaves `active_ts` untouched. -/
def updateStatusOffline (reg : Registry) (key : String) : Registry :=
  reg.map fun m =>
    if m.key == key then { m with status := nodeStatusOffline } else m

/-- The fresh master node record built by `MasterService.Register` when the
master's key is absent from the registry (master_service.go lines 113-121). -/
def freshMasterNode (nodeKey : String) (now : Nat) : Node :=
  { key := nodeKey
    name := nodeKey
    isMaster := true
    status := nodeStatusOnline
    enabled := true
    active := true
    activeTs := now }

/-- The branch structure of `MasterService.Register` (lines 107-141),
parameterised by the outcome of the `GetNodeByKey` lookup so that arbitrary
registry errors can be injected. Note the absent-key test compares error
MESSAGES: `err.Error() == mongo2.ErrNoDocuments.Error()`. -/
def registerCore (lookupRes : Except GoError Node) (reg : Registry)
    (nodeKey : String) (now : Nat) : Except GoError Registry :=
  match lookupRes with
  | Except.error err =>
    if err.msg == mongoErrNoDocuments.msg then
      addNode reg (freshMasterNode nodeKey now)
    else
      Except.error err
  | Except.ok _ => Except.ok (updateStatusOnline reg nodeKey now)

/-- `MasterService.Register` run against the concrete registry semantics. -/
def Register (reg : Registry) (nodeKey : String) (now : Nat) :
    Except GoError Registry :=
  registerCore (getNodeByKey reg nodeKey) reg nodeKey now

/-- `grpc.StreamMessageCode` opcodes used by the monitor. -/
inductive StreamMessageCode
  | PING
  | PONG
deriving DecidableEq, Repr

/-- `grpc.StreamMessage` as constructed by the monitor: opcode plus the
sender's node key. -/
structure StreamMessage where
  code : StreamMessageCode
  nodeKey : String
deriving DecidableEq, Repr

/-- A bidirectional stream handle; `send` is the liveness probe, whose
outcome the environment predetermines. -/
structure GrpcStream where
  send : StreamMessage → Except GoError Unit

/-- A subscription entry: `sub.GetStream()` yields the stream handle. -/
structure Subscription where
  stream : GrpcStream

/-- The monitor's external collaborators: `svc.server.GetSubscribe(key)`
and the outcome of `modelSvc.GetNodeList(bson.M(is_master: false), nil)`. -/
structure MonitorEnv where
  getSubscribe : String → Except GoError Subscription
  getNodeList : Except GoError (List Node)

/-- `MasterService.updateMasterNodeStatus` (lines 203-211): look up the
master's own row and refresh it to online. -/
def updateMasterNodeStatus (reg : Registry) (nodeKey : String) (now : Nat) :
    Except GoError Registry :=
  match getNodeByKey reg nodeKey with
  | Except.error e => Except.error e
  | Except.ok _ => Except.ok (updateStatusOnline reg nodeKey now)

/-- Whether the probe of node `n` in a tick fails: subscription lookup
error, or send error on the PING message (lines 172-193). -/
def probeFails (env : MonitorEnv) (masterKey : String) (n : Node) : Bool :=
  match env.getSubscribe n.key with
  | Except.error _ => true
  | Except.ok sub =>
    match sub.stream.send { code := StreamMessageCode.PING, nodeKey := masterKey } with
    | Except.error _ => true
    | Except.ok _ => false

/-- The per-node loop of `MasterService.monitor` (lines 170-194): probe each
node; on subscription-lookup or send failure mark it offline, set the error
flag and continue. Returns the final registry and the `isErr` flag. -/
def probeLoop (env : MonitorEnv) (masterKey : String) :
    List Node → Registry → Bool → Registry × Bool
  | [], reg, isErr => (reg, isErr)
  | n :: rest, reg, isErr =>
    match env.getSubscribe n.key with
    | Except.error _ =>
      probeLoop env masterKey rest (updateStatusOffline reg n.key) true
    | Except.ok sub =>
      match sub.stream.send { code := StreamMessageCode.PING, nodeKey := masterKey } with
      | Except.error _ =>
        probeLoop env masterKey rest (updateStatusOffline reg n.key) true
      | Except.ok _ => probeLoop env masterKey rest reg isErr

/-- `MasterService.monitor` (lines 151-201): one tick. Returns the final
registry and the tick's error result (`none` = `nil`). `trace.TraceError`
returns its argument unchanged, so it is the identity here. -/
def monitor (env : MonitorEnv) (reg : Registry) (masterKey : String)
    (now : Nat) : Registry × Option GoError :=
  match updateMasterNodeStatus reg masterKey now with
  | Except.error e => (reg, some e)
  | Except.ok reg1 =>
    match env.getNodeList with
    | Except.error e =>
      if e == mongoErrNoDocuments then (reg1, none) else (reg1, some e)
    | Except.ok nodes =>
      match probeLoop env masterKey nodes reg1 false with
      | (reg2, true) => (reg2, some errorNodeMonitorError)
      | (reg2, false) => (reg2, none)

/-- Observable events of the `MasterService.Monitor` loop (lines 69-81):
each iteration runs one tick, then either stops the service and returns
(stopOnError and the tick errored) or sleeps `monitorInterval`. -/
inductive LoopEvent
  | tick (err : Option GoError)
  | sleep (interval : Nat)
  | stopService
deriving DecidableEq, Repr

/-- The event trace of `MasterService.Monitor` fed a finite list of tick
outcomes (the Go loop is infinite; the list bounds how many iterations are
observed). Mirrors lines 69-81: on a tick error the loop stops the service
and returns only when `stopOnError` is set; otherwise it always sleeps and
iterates. -/
def monitorLoopRun (stopOnError : Bool) (interval : Nat) :
    List (Option GoError) → List LoopEvent
  | [] => []
  | e :: rest =>
    LoopEvent.tick e ::
      match e with
      | some _ =>
        if stopOnError then [LoopEvent.stopService]
        else LoopEvent.sleep interval :: monitorLoopRun stopOnError interval rest
      | none => LoopEvent.sleep interval :: monitorLoopRun stopOnError interval rest

/-- The lifecycle state touched by `MasterService.Stop` (lines 64-67). -/
structure MasterState where
  serverRunning : Bool
deriving DecidableEq, Repr

/-- `MasterService.Stop`: stops the grpc stream server and logs. It touches
nothing else: in particular it signals nothing to the monitor loop. -/
def Stop (s : MasterState) : MasterState :=
  { s with serverRunning := false }

/-- Observable events of `MasterService.Start` (lines 39-58). -/
inductive StartEvent
  | serverStarted
  | registered
  | monitorSpawned
  | waited
  | stopCalled
  | panicked (e : GoError)
deriving DecidableEq, Repr

/-- The event trace of `MasterService.Start`, parameterised by the outcomes
of `svc.server.Start()` and `svc.Register()` (`none` = `nil`): start the
grpc server (panic on error), register in the db (panic on error), spawn
the monitor goroutine, wait for the quit signal, stop. -/
def StartRun (serverErr : Option GoError) (registerErr : Option GoError) :
    List StartEvent :=
  match serverErr with
  | some e => [StartEvent.panicked e]
  | none =>
    match registerErr with
    | some e => [StartEvent.serverStarted, StartEvent.panicked e]
    | none =>
      [StartEvent.serverStarted, StartEvent.registered,
       StartEvent.monitorSpawned, StartEvent.waited, StartEvent.stopCalled]

/-- One second as a Go `time.Duration` (nanoseconds). -/
def goSecond : Nat := 1000000000

/-- Modelled from the spec: `config.DefaultConfigPath` (config package not
in src/); only its presence matters, not its value. -/
def defaultConfigPath : String := "config.yml"

/-- The settings fields of the `MasterService` struct. -/
structure MasterServiceSettings where
  cfgPath : String
  monitorInterval : Nat
  stopOnError : Bool
deriving DecidableEq, Repr

/-- The settings part of `NewMasterService` (lines 217-228): defaults of
60 s monitor interval and stopOnError false, then the option functions
applied in order. -/
def NewMasterService (opts : List (MasterServiceSettings → MasterServiceSettings)) :
    MasterServiceSettings :=
  opts.foldl (fun s o => o s)
    { cfgPath := defaultConfigPath
      monitorInterval := 60 * goSecond
      stopOnError := false }

/-- `MasterService.SetMonitorInterval` (lines 103-105): stores the given
duration with no validation. -/
def SetMonitorInterval (svc : MasterServiceSettings) (duration : Nat) :
    MasterServiceSettings :=
  { svc with monitorInterval := duration }

/-- `MasterService.StopOnError` (lines 143-145). -/
def setStopOnError (svc : MasterServiceSettings) : MasterServiceSettings :=
  { svc with stopOnError := true }

/-- The registry rows holding a given key. -/
def filterKey (reg : Registry) (k : String) : List Node :=
  reg.filter (fun n => n.key == k)

/-- A concrete worker row used in concrete evaluations. -/
def wNode (k : String) : Node :=
  { key := k, name := k, isMaster := false, status := nodeStatusOnline,
    enabled := true, active := true, activeTs := 0 }

/-- A concrete master row used in concrete evaluations. -/
def mNode (k : String) : Node :=
  { key := k, name := k, isMaster := true, status := nodeStatusOnline,
    enabled := true, active := true, activeTs := 0 }

/-- A concrete subscription-lookup error. -/
def errSubscribe : GoError := { id := 11, msg := "subscription not found" }

/-- A concrete transport send error. -/
def errSend : GoError := { id := 12, msg := "send failed" }

/-- A stream whose send always succeeds. -/
def okStream : GrpcStream := { send := fun _ => Except.ok () }

/-- A stream whose send always fails. -/
def badStream : GrpcStream := { send := fun _ => Except.error errSend }

/-- Concrete environment: w1 has no subscription, every other key has a
healthy stream; the registry query lists w1 and w2. -/
def envW1Down : MonitorEnv :=
  { getSubscribe := fun k =>
      if k == "w1" then Except.error errSubscribe
      else Except.ok { stream := okStream }
    getNodeList := Except.ok [wNode "w1", wNode "w2"] }

/-- Concrete environment with no subscriptions at all. -/
def envNoSubs : MonitorEnv :=
  { getSubscribe := fun _ => Except.error errSubscribe
    getNodeList := Except.ok [wNode "w1"] }

/-- Concrete environment whose node enumeration reports no documents. -/
def envListNoDocs : MonitorEnv :=
  { getSubscribe := fun _ => Except.error errSubscribe
    getNodeList := Except.error mongoErrNoDocuments }

/-- A registry error value whose message equals the no-documents sentinel
but which is a different error value. -/
def unrelatedNoDocsError : GoError :=
  { id := 99, msg := "mongo: no documents in result" }

/-- Every registry row holding key `k` is offline. -/
def allOffline (reg : Registry) (k : String) : Prop :=
  ∀ m ∈ reg, m.key = k → m.status = nodeStatusOffline

section ListHelpers

variable {α : Type}

theorem find?_map_pres (f : α → α) (p : α → Bool) (h : ∀ x, p (f x) = p x)
    (l : List α) : (l.map f).find? p = (l.find? p).map f := by
  induction l with
  | nil => rfl
  | cons a t ih =>
    cases hp : p a <;>
      simp [List.find?_cons, hp, h, ih]

theorem filter_map_pres (f : α → α) (p : α → Bool) (h : ∀ x, p (f x) = p x)
    (l : List α) : (l.map f).filter p = (l.filter p).map f := by
  induction l with
  | nil => rfl
  | cons a t ih =>
    cases hp : p a <;>
      simp [List.filter_cons, hp, h, ih]

theorem find?_eq_head?_filter (p : α → Bool) (l : List α) :
    l.find? p = (l.filter p).head? := by
  induction l with
  | nil => rfl
  | cons a t ih =>
    cases hp : p a
    · rw [List.find?_cons_of_neg _ (by simp [hp]),
        List.filter_cons_of_neg (by simp [hp])]
      exact ih
    · rw [List.find?_cons_of_pos _ hp, List.filter_cons_of_pos hp]
      rfl

theorem find?_append_none (p : α → Bool) (l1 l2 : List α)
    (h : l1.find? p = none) : (l1 ++ l2).find? p = l2.find? p := by
  induction l1 with
  | nil => rfl
  | cons a t ih =>
    cases hp : p a with
    | true => simp [List.find?_cons, hp] at h
    | false =>
      simp only [List.find?_cons, hp] at h
      simpa [List.find?_cons, hp] using ih h

theorem head?_length_le_one (l : List α) (a : α) (h1 : l.head? = some a)
    (h2 : l.length ≤ 1) : l = [a] := by
  cases l with
  | nil => simp at h1
  | cons b t =>
    simp only [List.head?_cons, Option.some.injEq] at h1
    cases t with
    | nil => simp [h1]
    | cons c u => simp at h2

end ListHelpers

theorem updateStatusOnline_key_pres (key : String) (now : Nat) (k : String) (x : Node) :
    ((if x.key == key then
        { x with status := nodeStatusOnline, active := true, activeTs := now }
      else x).key == k) = (x.key == k) := by
  split <;> rfl

theorem updateStatusOffline_key_pres (key k : String) (x : Node) :
    ((if x.key == key then { x with status := nodeStatusOffline } else x).key == k)
      = (x.key == k) := by
  split <;> rfl

/-- Marking a key offline does not touch rows holding a different key. -/
theorem find?_key_updateStatusOffline (reg : Registry) (key k : String)
    (hne : ¬ k = key) :
    (updateStatusOffline reg key).find? (fun m => m.key == k)
      = reg.find? (fun m => m.key == k) := by
  unfold updateStatusOffline
  rw [find?_map_pres _ _ (updateStatusOffline_key_pres key k)]
  cases hf : reg.find? (fun m => m.key == k) with
  | none => rfl
  | some m =>
    have hk : m.key = k := by simpa using List.find?_some hf
    have hcond : ¬ ((m.key == key) = true) := by
      simp only [beq_iff_eq, hk]
      exact hne
    simp only [Option.map_some', if_neg hcond]

/-- Refreshing a key to online maps the row found at that key. -/
theorem find?_updateStatusOnline_some (reg : Registry) (k : String) (now : Nat)
    (n : Node) (hf : reg.find? (fun m => m.key == k) = some n) :
    (updateStatusOnline reg k now).find? (fun m => m.key == k)
      = some { n with status := nodeStatusOnline, active := true, activeTs := now } := by
  unfold updateStatusOnline
  rw [find?_map_pres _ _ (updateStatusOnline_key_pres k now k), hf]
  have hk : (n.key == k) = true := by
    have h := List.find?_some hf
    simpa using h
  simp only [Option.map_some']
  rw [if_pos hk]

/-- Refreshing a key to online maps exactly the rows holding that key. -/
theorem filterKey_updateStatusOnline (reg : Registry) (k : String) (now : Nat) :
    filterKey (updateStatusOnline reg k now) k
      = (filterKey reg k).map
          (fun m => { m with status := nodeStatusOnline, active := true, activeTs := now }) := by
  unfold filterKey updateStatusOnline
  rw [filter_map_pres _ _ (updateStatusOnline_key_pres k now k)]
  apply List.map_congr_left
  intro m hm
  have hk : (m.key == k) = true := (List.mem_filter.mp hm).2
  rw [if_pos hk]

theorem allOffline_updateStatusOffline_self (reg : Registry) (k : String) :
    allOffline (updateStatusOffline reg k) k := by
  intro m hm hk
  unfold updateStatusOffline at hm
  rcases List.mem_map.mp hm with ⟨x, hx, hfx⟩
  cases hxk : (x.key == k) with
  | true => rw [← hfx, if_pos hxk]
  | false =>
    rw [← hfx, if_neg (by simp [hxk])] at hk ⊢
    have htrue : (x.key == k) = true := by simp [hk]
    rw [htrue] at hxk
    simp at hxk

theorem allOffline_updateStatusOffline_mono (reg : Registry) (k key : String)
    (h : allOffline reg k) : allOffline (updateStatusOffline reg key) k := by
  intro m hm hk
  unfold updateStatusOffline at hm
  rcases List.mem_map.mp hm with ⟨x, hx, hfx⟩
  cases hxk : (x.key == key) with
  | true => rw [← hfx, if_pos hxk]
  | false =>
    rw [← hfx, if_neg (by simp [hxk])] at hk ⊢
    exact h x hx hk

theorem allOffline_probeLoop (env : MonitorEnv) (mk k : String) :
    ∀ (nodes : List Node) (reg : Registry) (flag : Bool), allOffline reg k →
      allOffline (probeLoop env mk nodes reg flag).1 k := by
  intro nodes
  induction nodes with
  | nil => intro reg flag h; exact h
  | cons a t ih =>
    intro reg flag h
    cases h1 : env.getSubscribe a.key with
    | error e =>
      simp only [probeLoop, h1]
      exact ih _ _ (allOffline_updateStatusOffline_mono _ _ _ h)
    | ok sub =>
      cases h2 : sub.stream.send { code := StreamMessageCode.PING, nodeKey := mk } with
      | error e =>
        simp only [probeLoop, h1, h2]
        exact ih _ _ (allOffline_updateStatusOffline_mono _ _ _ h)
      | ok u =>
        simp only [probeLoop, h1, h2]
        exact ih _ _ h

/-- A node whose probe fails ends the per-node loop with every row holding
its key offline, no matter where in the list it sits. -/
theorem probeLoop_marks_failed (env : MonitorEnv) (mk : String) (n : Node)
    (hfail : probeFails env mk n = true) :
    ∀ (nodes : List Node), n ∈ nodes → ∀ (reg : Registry) (flag : Bool),
      allOffline (probeLoop env mk nodes reg flag).1 n.key := by
  intro nodes
  induction nodes with
  | nil => intro hmem; cases hmem
  | cons a t ih =>
    intro hmem reg flag
    rcases List.mem_cons.mp hmem with heq | hmem'
    · subst heq
      cases h1 : env.getSubscribe n.key with
      | error e =>
        simp only [probeLoop, h1]
        exact allOffline_probeLoop _ _ _ _ _ _
          (allOffline_updateStatusOffline_self _ _)
      | ok sub =>
        cases h2 : sub.stream.send { code := StreamMessageCode.PING, nodeKey := mk } with
        | error e =>
          simp only [probeLoop, h1, h2]
          exact allOffline_probeLoop _ _ _ _ _ _
            (allOffline_updateStatusOffline_self _ _)
        | ok u =>
          exfalso
          simp [probeFails, h1, h2] at hfail
    · cases h1 : env.getSubscribe a.key with
      | error e =>
        simp only [probeLoop, h1]
        exact ih hmem' _ _
      | ok sub =>
        cases h2 : sub.stream.send { code := StreamMessageCode.PING, nodeKey := mk } with
        | error e =>
          simp only [probeLoop, h1, h2]
          exact ih hmem' _ _
        | ok u =>
          simp only [probeLoop, h1, h2]
          exact ih hmem' _ _

/-- The per-node loop's error flag is the disjunction of the incoming flag
with the failure of any probed node. -/
theorem probeLoop_snd (env : MonitorEnv) (mk : String) :
    ∀ (nodes : List Node) (reg : Registry) (flag : Bool),
      (probeLoop env mk nodes reg flag).2 = (flag || nodes.any (probeFails env mk)) := by
  intro nodes
  induction nodes with
  | nil => intro reg flag; simp [probeLoop]
  | cons a t ih =>
    intro reg flag
    cases h1 : env.getSubscribe a.key with
    | error e =>
      have hf : probeFails env mk a = true := by simp [probeFails, h1]
      simp [probeLoop, h1, ih, hf]
    | ok sub =>
      cases h2 : sub.stream.send { code := StreamMessageCode.PING, nodeKey := mk } with
      | error e =>
        have hf : probeFails env mk a = true := by simp [probeFails, h1, h2]
        simp [probeLoop, h1, h2, ih, hf]
      | ok u =>
        have hf : probeFails env mk a = false := by simp [probeFails, h1, h2]
        simp [probeLoop, h1, h2, ih, hf]

/-- The per-node loop does not touch the registry at a key all of whose
probes succeed. -/
theorem probeLoop_find?_unchanged (env : MonitorEnv) (mk k : String) :
    ∀ (nodes : List Node), (∀ n ∈ nodes, n.key = k → probeFails env mk n = false) →
      ∀ (reg : Registry) (flag : Bool),
        (probeLoop env mk nodes reg flag).1.find? (fun m => m.key == k)
          = reg.find? (fun m => m.key == k) := by
  intro nodes
  induction nodes with
  | nil => intro _ reg flag; rfl
  | cons a t ih =>
    intro h reg flag
    have ht : ∀ n ∈ t, n.key = k → probeFails env mk n = false :=
      fun n hn => h n (List.mem_cons_of_mem a hn)
    cases h1 : env.getSubscribe a.key with
    | error e =>
      have hfa : probeFails env mk a = true := by simp [probeFails, h1]
      have hak : ¬ a.key = k := by
        intro hk
        simpa [hfa] using h a (List.mem_cons_self a t) hk
      simp only [probeLoop, h1]
      rw [ih ht, find?_key_updateStatusOffline _ _ _ (fun hkk => hak hkk.symm)]
    | ok sub =>
      cases h2 : sub.stream.send { code := StreamMessageCode.PING, nodeKey := mk } with
      | error e =>
        have hfa : probeFails env mk a = true := by simp [probeFails, h1, h2]
        have hak : ¬ a.key = k := by
          intro hk
          simpa [hfa] using h a (List.mem_cons_self a t) hk
        simp only [probeLoop, h1, h2]
        rw [ih ht, find?_key_updateStatusOffline _ _ _ (fun hkk => hak hkk.symm)]
      | ok u =>
        simp only [probeLoop, h1, h2]
        exact ih ht _ _

/-- When the master key is absent, `Register` inserts the fresh master row. -/
theorem register_absent (reg : Registry) (k : String) (now : Nat)
    (hf : reg.find? (fun n => n.key == k) = none) :
    Register reg k now = Except.ok (reg ++ [freshMasterNode k now]) := by
  have hany : reg.any (fun m => m.key == k) = false := by
    rw [List.any_eq_false]
    exact List.find?_eq_none.mp hf
  unfold Register registerCore getNodeByKey addNode
  rw [hf]
  simp [freshMasterNode, hany]

/-- When the master key is present, `Register` refreshes it to online. -/
theorem register_present (reg : Registry) (k : String) (now : Nat) (n : Node)
    (hf : reg.find? (fun m => m.key == k) = some n) :
    Register reg k now = Except.ok (updateStatusOnline reg k now) := by
  unfold Register registerCore getNodeByKey
  rw [hf]

/-- A tick whose master refresh and node enumeration succeed is the per-node
loop followed by the aggregate-error decision. -/
theorem monitor_eq_of_ok (env : MonitorEnv) (reg reg1 : Registry) (mk : String)
    (now : Nat) (nodes : List Node)
    (h1 : updateMasterNodeStatus reg mk now = Except.ok reg1)
    (h2 : env.getNodeList = Except.ok nodes) :
    monitor env reg mk now =
      ((probeLoop env mk nodes reg1 false).1,
       if (probeLoop env mk nodes reg1 false).2
         then some errorNodeMonitorError else none) := by
  unfold monitor
  rw [h1, h2]
  dsimp only
  rcases hp : probeLoop env mk nodes reg1 false with ⟨reg2, flag⟩
  cases flag <;> simp

/-- C1: for every monitor tick whose master refresh and registry enumeration
succeed, and every enumerated node whose subscription lookup or heartbeat send
fails, that node's registry rows are offline when the tick finishes and the
tick is flagged with the aggregate monitor error. The node is arbitrary in the
list, so one failing worker does not prevent the others from being probed and
marked in the same tick. -/
theorem monitor_failed_probe_marks_offline_and_flags
    (env : MonitorEnv) (reg reg1 : Registry) (mk : String) (now : Nat)
    (nodes : List Node) (n : Node)
    (h1 : updateMasterNodeStatus reg mk now = Except.ok reg1)
    (h2 : env.getNodeList = Except.ok nodes)
    (h3 : n ∈ nodes) (h4 : probeFails env mk n = true) :
    allOffline (monitor env reg mk now).1 n.key ∧
      (monitor env reg mk now).2 = some errorNodeMonitorError := by
  rw [monitor_eq_of_ok env reg reg1 mk now nodes h1 h2]
  have hflag : (probeLoop env mk nodes reg1 false).2 = true := by
    rw [probeLoop_snd]
    simp only [Bool.false_or, List.any_eq_true]
    exact ⟨n, h3, h4⟩
  constructor
  · exact probeLoop_marks_failed env mk n h4 nodes h3 reg1 false
  · simp [hflag]

/-- C1 witness: in a concrete tick against master m1 with workers w1 and w2,
where w1's subscription lookup fails, w1 ends offline and the tick reports the
monitor error. -/
theorem monitor_failed_probe_witness :
    allOffline
      (monitor envW1Down [mNode "m1", wNode "w1", wNode "w2"] "m1" 7).1
      (wNode "w1").key ∧
    (monitor envW1Down [mNode "m1", wNode "w1", wNode "w2"] "m1" 7).2
      = some errorNodeMonitorError :=
  monitor_failed_probe_marks_offline_and_flags envW1Down
    [mNode "m1", wNode "w1", wNode "w2"]
    (updateStatusOnline [mNode "m1", wNode "w1", wNode "w2"] "m1" 7)
    "m1" 7 [wNode "w1", wNode "w2"] (wNode "w1")
    (by rfl) (by rfl) (by decide) (by decide)

/-- C4: given a successful master refresh, a tick returns the aggregate
monitor error exactly when some enumerated node's probe failed; an enumeration
reporting no documents, or an empty enumeration, yields a successful tick. -/
theorem monitor_error_iff_failed_probe
    (env : MonitorEnv) (reg reg1 : Registry) (mk : String) (now : Nat)
    (h1 : updateMasterNodeStatus reg mk now = Except.ok reg1) :
    (env.getNodeList = Except.error mongoErrNoDocuments →
        monitor env reg mk now = (reg1, none)) ∧
    (∀ nodes, env.getNodeList = Except.ok nodes →
        (((monitor env reg mk now).2 = some errorNodeMonitorError)
            ↔ ∃ n ∈ nodes, probeFails env mk n = true)
          ∧ (nodes = [] → monitor env reg mk now = (reg1, none))) := by
  constructor
  · intro h2
    unfold monitor
    rw [h1, h2]
    simp
  · intro nodes h2
    rw [monitor_eq_of_ok env reg reg1 mk now nodes h1 h2]
    constructor
    · rw [probeLoop_snd]
      simp only [Bool.false_or]
      cases hany : nodes.any (probeFails env mk)
      · rw [if_neg (by simp [hany])]
        simp only [List.any_eq_false] at hany
        constructor
        · intro h
          exact absurd h (by simp)
        · rintro ⟨n, hn, hp⟩
          exact absurd hp (hany n hn)
      · rw [if_pos (by simp [hany])]
        constructor
        · intro _
          exact List.any_eq_true.mp hany
        · intro _
          rfl
    · intro hnil
      subst hnil
      simp [probeLoop]

/-- C4 witness: with master m1 present, a tick over workers w1 (failing) and
w2 (healthy) reports the monitor error, the failing worker witnessing the
disjunction; a tick whose enumeration reports no documents succeeds. -/
theorem monitor_error_iff_witness :
    (((monitor envW1Down [mNode "m1"] "m1" 3).2 = some errorNodeMonitorError)
        ↔ ∃ n ∈ [wNode "w1", wNode "w2"], probeFails envW1Down "m1" n = true) ∧
    monitor envListNoDocs [mNode "m1"] "m1" 3
      = (updateStatusOnline [mNode "m1"] "m1" 3, none) :=
  ⟨((monitor_error_iff_failed_probe envW1Down [mNode "m1"]
        (updateStatusOnline [mNode "m1"] "m1" 3) "m1" 3 (by rfl)).2
      [wNode "w1", wNode "w2"] (by rfl)).1,
   (monitor_error_iff_failed_probe envListNoDocs [mNode "m1"]
        (updateStatusOnline [mNode "m1"] "m1" 3) "m1" 3 (by rfl)).1 (by rfl)⟩

/-- C5: a worker key all of whose enumerated nodes probe successfully has its
registry record untouched by the tick: the record after the tick equals the
record right after the master's own refresh, so a successful heartbeat send
neither sets the status online nor updates active or active_ts. -/
theorem monitor_successful_probe_leaves_record_unchanged
    (env : MonitorEnv) (reg reg1 : Registry) (mk : String) (now : Nat)
    (nodes : List Node) (k : String)
    (h1 : updateMasterNodeStatus reg mk now = Except.ok reg1)
    (h2 : env.getNodeList = Except.ok nodes)
    (h3 : ∀ n ∈ nodes, n.key = k → probeFails env mk n = false) :
    (monitor env reg mk now).1.find? (fun m => m.key == k)
      = reg1.find? (fun m => m.key == k) := by
  rw [monitor_eq_of_ok env reg reg1 mk now nodes h1 h2]
  exact probeLoop_find?_unchanged env mk k nodes h3 reg1 false

/-- C5 witness: in the concrete tick where w1 fails and w2's send succeeds,
w2's record after the tick is exactly its record before the probing phase,
still online with its old active_ts. -/
theorem monitor_frame_witness :
    (monitor envW1Down [mNode "m1", wNode "w1", wNode "w2"] "m1" 7).1.find?
        (fun m => m.key == "w2")
      = (updateStatusOnline [mNode "m1", wNode "w1", wNode "w2"] "m1" 7).find?
          (fun m => m.key == "w2") ∧
    (updateStatusOnline [mNode "m1", wNode "w1", wNode "w2"] "m1" 7).find?
        (fun m => m.key == "w2") = some (wNode "w2") :=
  ⟨monitor_successful_probe_leaves_record_unchanged envW1Down
      [mNode "m1", wNode "w1", wNode "w2"]
      (updateStatusOnline [mNode "m1", wNode "w1", wNode "w2"] "m1" 7)
      "m1" 7 [wNode "w1", wNode "w2"] "w2"
      (by rfl) (by rfl) (by decide),
   by decide⟩

/-- C2: Register inserts the fresh master row (key and name equal to the node
key, is_master, online, enabled, active, active_ts = now) when the lookup
reports no documents; refreshes the row to online when the lookup succeeds;
propagates any other lookup error unchanged; and running it twice against a
registry holding at most one row for the key (all of them master rows) leaves
exactly one master row for the key, online. -/
theorem register_cases_and_idempotent :
    (∀ (reg : Registry) (k : String) (now : Nat),
        getNodeByKey reg k = Except.error mongoErrNoDocuments →
          Register reg k now = Except.ok (reg ++ [freshMasterNode k now])) ∧
    (∀ (reg : Registry) (k : String) (now : Nat) (n : Node),
        getNodeByKey reg k = Except.ok n →
          Register reg k now = Except.ok (updateStatusOnline reg k now)) ∧
    (∀ (e : GoError) (reg : Registry) (k : String) (now : Nat),
        ¬ e.msg = mongoErrNoDocuments.msg →
          registerCore (Except.error e) reg k now = Except.error e) ∧
    (∀ (reg : Registry) (k : String) (t1 t2 : Nat),
        (filterKey reg k).length ≤ 1 →
        (∀ n ∈ reg, n.key = k → n.isMaster = true) →
        ∃ reg1 reg2 m,
          Register reg k t1 = Except.ok reg1 ∧
          Register reg1 k t2 = Except.ok reg2 ∧
          filterKey reg2 k = [m] ∧ m.isMaster = true ∧ m.status = nodeStatusOnline) := by
  refine ⟨?_, ?_, ?_, ?_⟩
  · intro reg k now h
    unfold getNodeByKey at h
    cases hf : reg.find? (fun n => n.key == k) with
    | some n =>
      rw [hf] at h
      simp at h
    | none => exact register_absent reg k now hf
  · intro reg k now n h
    unfold getNodeByKey at h
    cases hf : reg.find? (fun m => m.key == k) with
    | some m => exact register_present reg k now m hf
    | none =>
      rw [hf] at h
      simp at h
  · intro e reg k now h
    simp only [registerCore]
    rw [if_neg (by simp [h])]
  · intro reg k t1 t2 hlen hmaster
    cases hf : reg.find? (fun n => n.key == k) with
    | none =>
      have h1 : Register reg k t1 = Except.ok (reg ++ [freshMasterNode k t1]) :=
        register_absent reg k t1 hf
      have hfind1 : (reg ++ [freshMasterNode k t1]).find? (fun m => m.key == k)
          = some (freshMasterNode k t1) := by
        rw [find?_append_none _ _ _ hf]
        simp [freshMasterNode, List.find?_cons]
      have h2 : Register (reg ++ [freshMasterNode k t1]) k t2
          = Except.ok (updateStatusOnline (reg ++ [freshMasterNode k t1]) k t2) :=
        register_present _ k t2 _ hfind1
      refine ⟨_, _, freshMasterNode k t2, h1, h2, ?_, rfl, rfl⟩
      rw [filterKey_updateStatusOnline]
      have hnil : List.filter (fun n => n.key == k) reg = [] := by
        rw [List.filter_eq_nil_iff]
        exact List.find?_eq_none.mp hf
      unfold filterKey
      rw [List.filter_append, hnil]
      simp [freshMasterNode, List.filter_cons]
    | some n =>
      have hkey : n.key = k := by
        have h := List.find?_some hf
        simpa using h
      have hmem := List.mem_of_find?_eq_some hf
      have h1 : Register reg k t1 = Except.ok (updateStatusOnline reg k t1) :=
        register_present reg k t1 n hf
      have hfind1 := find?_updateStatusOnline_some reg k t1 n hf
      have h2 : Register (updateStatusOnline reg k t1) k t2
          = Except.ok (updateStatusOnline (updateStatusOnline reg k t1) k t2) :=
        register_present _ k t2 _ hfind1
      have hfk : filterKey reg k = [n] := by
        apply head?_length_le_one _ _ _ hlen
        show (List.filter (fun n => n.key == k) reg).head? = some n
        rw [← find?_eq_head?_filter]
        exact hf
      refine ⟨_, _, { n with status := nodeStatusOnline, active := true, activeTs := t2 },
        h1, h2, ?_, ?_, rfl⟩
      · rw [filterKey_updateStatusOnline, filterKey_updateStatusOnline, hfk]
        rfl
      · show n.isMaster = true
        exact hmaster n hmem hkey

/-- C2 witness: against the empty registry, two Registers in sequence with
node key m1 leave exactly one master row, online; the first Register
concretely inserts the fresh row. -/
theorem register_idempotence_witness :
    (∃ reg1 reg2 m,
        Register [] "m1" 5 = Except.ok reg1 ∧
        Register reg1 "m1" 9 = Except.ok reg2 ∧
        filterKey reg2 "m1" = [m] ∧ m.isMaster = true ∧
        m.status = nodeStatusOnline) ∧
    Register [] "m1" 5 = Except.ok [freshMasterNode "m1" 5] :=
  ⟨register_cases_and_idempotent.2.2.2 [] "m1" 5 9 (by decide) (by decide),
   by rfl⟩

/-- C10: the absent-master test in Register compares error messages, so any
lookup error whose message textually equals the no-documents sentinel takes
the fresh-insert path instead of being propagated. -/
theorem register_matches_no_documents_by_message (e : GoError) (reg : Registry)
    (k : String) (now : Nat) (h : e.msg = mongoErrNoDocuments.msg) :
    registerCore (Except.error e) reg k now
      = addNode reg (freshMasterNode k now) := by
  simp only [registerCore]
  rw [if_pos (by simp [h])]

/-- C10 witness: an error value distinct from mongo.ErrNoDocuments but with
the same message makes Register insert the fresh master row rather than
propagate the error. -/
theorem register_message_match_witness :
    ¬ unrelatedNoDocsError = mongoErrNoDocuments ∧
    registerCore (Except.error unrelatedNoDocsError) [] "m1" 0
      = addNode [] (freshMasterNode "m1" 0) ∧
    addNode [] (freshMasterNode "m1" 0) = Except.ok [freshMasterNode "m1" 0] :=
  ⟨by decide,
   register_matches_no_documents_by_message unrelatedNoDocsError [] "m1" 0 (by rfl),
   by rfl⟩

/-- C3 counterexample: with the master's own row absent from the registry the
refresh fails, and the tick returns that error with the registry untouched.
The worker w1, whose subscription lookup fails in this environment, keeps its
online status: the tick did NOT continue enumerating and probing workers,
contrary to the claim (probing would have marked w1 offline). -/
theorem monitor_master_refresh_counterexample :
    monitor envNoSubs [wNode "w1"] "m1" 5 = ([wNode "w1"], some mongoErrNoDocuments) ∧
    probeFails envNoSubs "m1" (wNode "w1") = true ∧
    (wNode "w1").status = nodeStatusOnline := by
  refine ⟨by rfl, by decide, rfl⟩

/-- C3 (amended): when refreshing the master's own row fails, the tick aborts
immediately, returning the refresh error with the registry untouched and no
worker probed; the returned error is fatal only under stopOnError (the loop
stops the service), otherwise the loop logs it, sleeps and runs the next
tick. -/
theorem monitor_master_refresh_failure_aborts_tick
    (env : MonitorEnv) (reg : Registry) (mk : String) (now : Nat) (e : GoError)
    (h : updateMasterNodeStatus reg mk now = Except.error e) :
    monitor env reg mk now = (reg, some e) ∧
    (∀ (iv : Nat) (rest : List (Option GoError)),
        monitorLoopRun true iv (some e :: rest)
          = [LoopEvent.tick (some e), LoopEvent.stopService]) ∧
    (∀ (iv : Nat) (rest : List (Option GoError)),
        monitorLoopRun false iv (some e :: rest)
          = LoopEvent.tick (some e) :: LoopEvent.sleep iv
              :: monitorLoopRun false iv rest) := by
  refine ⟨?_, ?_, ?_⟩
  · unfold monitor
    rw [h]
  · intro iv rest
    simp [monitorLoopRun]
  · intro iv rest
    simp [monitorLoopRun]

/-- C3 witness: the amended theorem applied to the concrete aborted tick of
the counterexample environment. -/
theorem monitor_master_refresh_witness :
    monitor envNoSubs [wNode "w1"] "m1" 5 = ([wNode "w1"], some mongoErrNoDocuments) ∧
    monitorLoopRun true 60 [some mongoErrNoDocuments]
      = [LoopEvent.tick (some mongoErrNoDocuments), LoopEvent.stopService] :=
  ⟨(monitor_master_refresh_failure_aborts_tick envNoSubs [wNode "w1"] "m1" 5
      mongoErrNoDocuments (by rfl)).1,
   (monitor_master_refresh_failure_aborts_tick envNoSubs [wNode "w1"] "m1" 5
      mongoErrNoDocuments (by rfl)).2.1 60 []⟩

/-- C6: each loop iteration runs a tick and then sleeps monitorInterval
whatever the tick's outcome, except that when stopOnError is set and the tick
errored, the loop stops the service and exits: no sleep and no further
tick. -/
theorem monitor_loop_sleeps_unless_fatal (s : Bool) (iv : Nat)
    (e : Option GoError) (rest : List (Option GoError)) :
    monitorLoopRun s iv (e :: rest)
      = if s && e.isSome then [LoopEvent.tick e, LoopEvent.stopService]
        else LoopEvent.tick e :: LoopEvent.sleep iv :: monitorLoopRun s iv rest := by
  cases e <;> cases s <;> simp [monitorLoopRun]

/-- C7: Start performs its steps in order: grpc server start, then
self-registration, then spawning the monitor, then waiting for the quit
signal, then stopping; a server-start or registration error panics before the
later steps, so registration completes before the monitor loop exists at
all. -/
theorem start_sequence_order :
    StartRun none none
      = [StartEvent.serverStarted, StartEvent.registered,
         StartEvent.monitorSpawned, StartEvent.waited, StartEvent.stopCalled] ∧
    (StartRun none none).indexOf StartEvent.serverStarted
        < (StartRun none none).indexOf StartEvent.registered ∧
    (StartRun none none).indexOf StartEvent.registered
        < (StartRun none none).indexOf StartEvent.monitorSpawned ∧
    (StartRun none none).indexOf StartEvent.monitorSpawned
        < (StartRun none none).indexOf StartEvent.waited ∧
    (StartRun none none).indexOf StartEvent.waited
        < (StartRun none none).indexOf StartEvent.stopCalled ∧
    (∀ e, StartRun (some e) none = [StartEvent.panicked e]) ∧
    (∀ e, StartRun none (some e)
        = [StartEvent.serverStarted, StartEvent.panicked e]) :=
  ⟨rfl, by decide, by decide, by decide, by decide,
   fun e => rfl, fun e => rfl⟩

/-- C8 counterexample: Stop does stop the stream server, but feeding the
monitor loop one more tick after any stop still produces a tick followed by a
sleep, and its trace holds no stop event: the loop does not observe any
cancellation and does not exit before the next tick, contrary to the
claim. -/
theorem stop_loop_counterexample :
    (Stop { serverRunning := true }).serverRunning = false ∧
    monitorLoopRun false (60 * goSecond) [none]
      = [LoopEvent.tick none, LoopEvent.sleep (60 * goSecond)] ∧
    ¬ LoopEvent.stopService ∈ monitorLoopRun false (60 * goSecond) [none] := by
  refine ⟨rfl, by decide, by decide⟩

/-- C8 (amended): Stop stops the stream server and nothing else; the monitor
loop has no cancellation check, and its trace holds a stop event only when
stopOnError is set and some tick errored — it keeps ticking after Stop until
the process exits. -/
theorem stop_stops_server_loop_unaware :
    (∀ s : MasterState, (Stop s).serverRunning = false) ∧
    (∀ (s : Bool) (iv : Nat) (es : List (Option GoError)),
        LoopEvent.stopService ∈ monitorLoopRun s iv es →
          s = true ∧ ∃ e ∈ es, e.isSome = true) := by
  constructor
  · intro s
    rfl
  · intro s iv es
    induction es with
    | nil =>
      intro h
      simp [monitorLoopRun] at h
    | cons e rest ih =>
      intro h
      cases e with
      | none =>
        rw [show monitorLoopRun s iv (none :: rest)
            = LoopEvent.tick none :: LoopEvent.sleep iv :: monitorLoopRun s iv rest
          from rfl] at h
        rcases List.mem_cons.mp h with h1 | h2
        · exact absurd h1 (by simp)
        · rcases List.mem_cons.mp h2 with h3 | h4
          · exact absurd h3 (by simp)
          · rcases ih h4 with ⟨hs, e', he', hsome⟩
            exact ⟨hs, e', List.mem_cons_of_mem _ he', hsome⟩
      | some a =>
        cases s with
        | true =>
          exact ⟨rfl, some a, List.mem_cons_self _ _, rfl⟩
        | false =>
          rw [show monitorLoopRun false iv (some a :: rest)
              = LoopEvent.tick (some a) :: LoopEvent.sleep iv
                  :: monitorLoopRun false iv rest
            from rfl] at h
          rcases List.mem_cons.mp h with h1 | h2
          · exact absurd h1 (by simp)
          · rcases List.mem_cons.mp h2 with h3 | h4
            · exact absurd h3 (by simp)
            · exact absurd (ih h4).1 (by simp)

/-- C8 witness: the amended theorem at concrete inputs: a stopped state has
the server down, and a stop event in the trace of a run with stopOnError set
comes with an errored tick. -/
theorem stop_loop_witness :
    (Stop { serverRunning := true }).serverRunning = false ∧
    (true = true ∧ ∃ e ∈ [some errSend], e.isSome = true) :=
  ⟨stop_stops_server_loop_unaware.1 { serverRunning := true },
   stop_stops_server_loop_unaware.2 true 60 [some errSend] (by decide)⟩

/-- C9 counterexample: SetMonitorInterval performs no validation, so a
monitor interval of one nanosecond — far below one second — is accepted and
stored, contrary to the claim that sub-second intervals are rejected or
impossible. -/
theorem set_monitor_interval_counterexample :
    (SetMonitorInterval (NewMasterService []) 1).monitorInterval = 1 ∧
    1 < goSecond :=
  ⟨rfl, by decide⟩

/-- C9 (amended): a newly constructed master service defaults to a 60-second
monitor interval and stopOnError false, but the monitor interval is not
validated: SetMonitorInterval stores any duration, including values below one
second. -/
theorem new_master_service_defaults :
    (NewMasterService []).monitorInterval = 60 * goSecond ∧
    (NewMasterService []).stopOnError = false ∧
    (∀ (svc : MasterServiceSettings) (d : Nat),
        (SetMonitorInterval svc d).monitorInterval = d) :=
  ⟨rfl, rfl, fun _ _ => rfl⟩

end Crawlab
